import Mathlib

/-!
Verification of the proportional profit-allocation engine of the
contractor-calculator dashboard.

The program's core is the pure function `calculateMetrics` in
`src/app/calculator/page.tsx` (the same function appears verbatim in the
second copy of the component): given a sale price and three cost inputs
(acquisition, labor, material) it splits the margin `price - totalBaseCost`
between an investor (bearing acquisition + material cost) and a contractor
(bearing labor cost) in proportion to their cost shares, and also reports
each party's profit as a percentage of its own cost.

The embedding works over `ℚ` (exact arithmetic): every local constant of the
source function becomes a definition with the same name, and
`calculateMetrics` assembles the result record exactly as the source does
(distribution = cost + ratio * margin; profit = distribution - cost).
The source's JavaScript division-by-zero behavior (NaN / ±Infinity) is
modelled separately by the `JNum` type below, used for the safety claim
about non-finite outputs.
-/

/-- Result record of the engine (interface `Metrics` in the source).  The
source's `investorRatio` / `contractorRatio` fields are display strings
produced by `(ratio * 100).toFixed(1)`; they are modelled here by the
numeric value of that string (the percentage rounded to one decimal). -/
structure Metrics where
  investorProfit : ℚ
  contractorProfit : ℚ
  investorProfitPercent : ℚ
  contractorProfitPercent : ℚ
  totalBaseCost : ℚ
  investorRatio : ℚ
  contractorRatio : ℚ
  deriving DecidableEq, Repr

/-- Numeric value of JavaScript's `x.toFixed(1)`: `x` rounded to one decimal
place (used only for the two display-ratio fields; no claim depends on the
tie-breaking direction). -/
def toFixed1 (x : ℚ) : ℚ := (round (x * 10) : ℤ) / 10

/-- Source line `const totalBaseCost = acquisition + labor + material`. -/
def totalBaseCost (acquisition labor material : ℚ) : ℚ :=
  acquisition + labor + material

/-- Source line `const investorCosts = acquisition + material`. -/
def investorCosts (acquisition material : ℚ) : ℚ := acquisition + material

/-- Source line `const contractorCosts = labor`. -/
def contractorCosts (labor : ℚ) : ℚ := labor

/-- Source line `const investorRatio = investorCosts / totalBaseCost`. -/
def investorRatio (acquisition labor material : ℚ) : ℚ :=
  investorCosts acquisition material / totalBaseCost acquisition labor material

/-- Source line `const contractorRatio = contractorCosts / totalBaseCost`. -/
def contractorRatio (acquisition labor material : ℚ) : ℚ :=
  contractorCosts labor / totalBaseCost acquisition labor material

/-- Source line `const margin = price - totalBaseCost`. -/
def margin (price acquisition labor material : ℚ) : ℚ :=
  price - totalBaseCost acquisition labor material

/-- Source line `const investorDistribution = investorCosts + investorRatio * margin`. -/
def investorDistribution (price acquisition labor material : ℚ) : ℚ :=
  investorCosts acquisition material +
    investorRatio acquisition labor material * margin price acquisition labor material

/-- Source line `const contractorDistribution = contractorCosts + contractorRatio * margin`. -/
def contractorDistribution (price acquisition labor material : ℚ) : ℚ :=
  contractorCosts labor +
    contractorRatio acquisition labor material * margin price acquisition labor material

/-- Source line `const investorProfit = investorDistribution - investorCosts`. -/
def investorProfit (price acquisition labor material : ℚ) : ℚ :=
  investorDistribution price acquisition labor material - investorCosts acquisition material

/-- Source line `const contractorProfit = contractorDistribution - contractorCosts`. -/
def contractorProfit (price acquisition labor material : ℚ) : ℚ :=
  contractorDistribution price acquisition labor material - contractorCosts labor

/-- The allocation engine `calculateMetrics` of `src/app/calculator/page.tsx`
(lines 200-225), assembled from the step definitions above exactly as the
source's local constants are. -/
def calculateMetrics (price acquisition labor material : ℚ) : Metrics :=
  { investorProfit := investorProfit price acquisition labor material
    contractorProfit := contractorProfit price acquisition labor material
    investorProfitPercent :=
      investorProfit price acquisition labor material / investorCosts acquisition material * 100
    contractorProfitPercent :=
      contractorProfit price acquisition labor material / contractorCosts labor * 100
    totalBaseCost := totalBaseCost acquisition labor material
    investorRatio := toFixed1 (investorRatio acquisition labor material * 100)
    contractorRatio := toFixed1 (contractorRatio acquisition labor material * 100) }

/-- One element of the trend series (the object literal built per price point
in `trendData`, lines 255-273 of the source). -/
structure TrendPoint where
  salePrice : ℚ
  investorProfit : ℚ
  contractorProfit : ℚ
  investorProfitPercent : ℚ
  contractorProfitPercent : ℚ
  contractorRevenue : ℚ
  deriving DecidableEq, Repr

/-- The trend series `trendData` of the source: 21 equally spaced sample
prices over `[0.5 * totalCost, 2 * totalCost]` (20 steps), each mapped
through `calculateMetrics` with the three costs held fixed. -/
def trendData (acquisitionCost laborCost materialCost : ℚ) : List TrendPoint :=
  let totalCost := acquisitionCost + laborCost + materialCost
  let minPrice := totalCost * 0.5
  let maxPrice := totalCost * 2
  let steps : ℕ := 20
  let stepSize := (maxPrice - minPrice) / (steps : ℚ)
  (List.range (steps + 1)).map (fun (i : ℕ) =>
    let price := minPrice + (i : ℚ) * stepSize
    let m := calculateMetrics price acquisitionCost laborCost materialCost
    { salePrice := price
      investorProfit := m.investorProfit
      contractorProfit := m.contractorProfit
      investorProfitPercent := m.investorProfitPercent
      contractorProfitPercent := m.contractorProfitPercent
      contractorRevenue := laborCost + m.contractorProfit })

/-- Spec formulation of step 5 (direct form): `investorProfit = investorRatio * margin`. -/
def specInvestorProfit (price acquisition labor material : ℚ) : ℚ :=
  investorRatio acquisition labor material * margin price acquisition labor material

/-- Spec formulation of step 5 (direct form): `contractorProfit = contractorRatio * margin`. -/
def specContractorProfit (price acquisition labor material : ℚ) : ℚ :=
  contractorRatio acquisition labor material * margin price acquisition labor material

/-- The claim's sample-price formula for the trend series:
`pointPrice = 0.5 * totalCost + i * ((2 * totalCost - 0.5 * totalCost) / 20)`. -/
def specPointPrice (totalCost : ℚ) (i : ℕ) : ℚ :=
  0.5 * totalCost + (i : ℚ) * ((2 * totalCost - 0.5 * totalCost) / 20)

/-!
## JavaScript number model

The source runs on JavaScript numbers, whose only deviation from exact field
arithmetic reachable in this program is division by zero: `x / 0` is `NaN`
when `x = 0` and `±Infinity` otherwise, and `NaN` / infinities then propagate
through `+`, `-`, `*`, `/`.  `JNum` models a JavaScript number as either a
finite exact value (`fin q`, idealizing rounding and overflow away, as the
spec's tolerance-based phrasing itself does), `nan`, or a signed infinity
(`inf true` is positive infinity).  The operations below follow the IEEE-754
rules JavaScript uses, with the single unsigned zero `fin 0` treated as
positive zero (the only zero this program can produce). -/
inductive JNum where
  | nan : JNum
  | inf : Bool → JNum
  | fin : ℚ → JNum
  deriving DecidableEq, Repr

namespace JNum

/-- IEEE addition: `NaN` propagates, opposite infinities give `NaN`. -/
def add : JNum → JNum → JNum
  | nan, _ => nan
  | _, nan => nan
  | inf s, inf t => if s = t then inf s else nan
  | inf s, fin _ => inf s
  | fin _, inf t => inf t
  | fin a, fin b => fin (a + b)

/-- IEEE negation. -/
def neg : JNum → JNum
  | nan => nan
  | inf s => inf (!s)
  | fin a => fin (-a)

/-- IEEE subtraction: `x - y = x + (-y)`. -/
def sub (x y : JNum) : JNum := add x (neg y)

/-- IEEE multiplication: `0 * ±Infinity = NaN`, signs multiply. -/
def mul : JNum → JNum → JNum
  | nan, _ => nan
  | _, nan => nan
  | inf s, inf t => inf (s = t)
  | inf s, fin b => if b = 0 then nan else if 0 < b then inf s else inf (!s)
  | fin a, inf t => if a = 0 then nan else if 0 < a then inf t else inf (!t)
  | fin a, fin b => fin (a * b)

/-- IEEE division: `0 / 0 = NaN`, `x / 0 = ±Infinity` for `x ≠ 0` (the zero
divisor is positive zero), `±Infinity / ±Infinity = NaN`, finite over
infinite is `0`. -/
def div : JNum → JNum → JNum
  | nan, _ => nan
  | _, nan => nan
  | inf _, inf _ => nan
  | inf s, fin b => if 0 ≤ b then inf s else inf (!s)
  | fin _, inf _ => fin 0
  | fin a, fin b =>
      if b = 0 then (if a = 0 then nan else if 0 < a then inf true else inf false)
      else fin (a / b)

instance : Add JNum := ⟨add⟩
instance : Neg JNum := ⟨neg⟩
instance : Sub JNum := ⟨sub⟩
instance : Mul JNum := ⟨mul⟩
instance : Div JNum := ⟨div⟩

/-- A `JNum` is finite when it is neither `NaN` nor an infinity. -/
def isFinite : JNum → Bool
  | fin _ => true
  | _ => false

end JNum

/-- The numeric fields of the result record under the JavaScript number
model (the source's two remaining fields are display strings, produced by
`toFixed`, which never faults). -/
structure MetricsJS where
  investorProfit : JNum
  contractorProfit : JNum
  investorProfitPercent : JNum
  contractorProfitPercent : JNum
  totalBaseCost : JNum
  deriving DecidableEq, Repr

/-- Function `calculateMetrics` transcribed over the JavaScript number model, local
constant by local constant. -/
def calculateMetricsJS (price acquisition labor material : JNum) : MetricsJS :=
  let totalBaseCost := acquisition + labor + material
  let investorCosts := acquisition + material
  let contractorCosts := labor
  let investorRatio := investorCosts / totalBaseCost
  let contractorRatio := contractorCosts / totalBaseCost
  let margin := price - totalBaseCost
  let investorDistribution := investorCosts + investorRatio * margin
  let contractorDistribution := contractorCosts + contractorRatio * margin
  let investorProfit := investorDistribution - investorCosts
  let contractorProfit := contractorDistribution - contractorCosts
  { investorProfit := investorProfit
    contractorProfit := contractorProfit
    investorProfitPercent := investorProfit / investorCosts * JNum.fin 100
    contractorProfitPercent := contractorProfit / contractorCosts * JNum.fin 100
    totalBaseCost := totalBaseCost }

example : (calculateMetrics 200 80 40 40).investorProfit = 30 := by
  norm_num [calculateMetrics, investorProfit, investorDistribution, investorRatio,
    investorCosts, contractorCosts, totalBaseCost, margin]

example : (calculateMetrics 200 80 40 40).contractorProfit = 10 := by
  norm_num [calculateMetrics, contractorProfit, contractorDistribution, contractorRatio,
    investorCosts, contractorCosts, totalBaseCost, margin]

/-! ### Evaluation lemmas for the JavaScript number operations -/

theorem JNum.add_def (x y : JNum) : x + y = JNum.add x y := rfl

theorem JNum.sub_def (x y : JNum) : x - y = JNum.sub x y := rfl

theorem JNum.mul_def (x y : JNum) : x * y = JNum.mul x y := rfl

theorem JNum.div_def (x y : JNum) : x / y = JNum.div x y := rfl

@[simp] theorem JNum.isFinite_fin (a : ℚ) : (JNum.fin a).isFinite = true := rfl

@[simp] theorem JNum.isFinite_nan : (JNum.nan).isFinite = false := rfl

@[simp] theorem JNum.isFinite_inf (s : Bool) : (JNum.inf s).isFinite = false := rfl

@[simp] theorem JNum.nan_add (x : JNum) : JNum.nan + x = JNum.nan := by
  cases x <;> rfl

@[simp] theorem JNum.add_nan (x : JNum) : x + JNum.nan = JNum.nan := by
  cases x <;> rfl

@[simp] theorem JNum.fin_add_fin (a b : ℚ) :
    JNum.fin a + JNum.fin b = JNum.fin (a + b) := rfl

@[simp] theorem JNum.inf_add_fin (s : Bool) (b : ℚ) :
    JNum.inf s + JNum.fin b = JNum.inf s := rfl

@[simp] theorem JNum.fin_add_inf (a : ℚ) (t : Bool) :
    JNum.fin a + JNum.inf t = JNum.inf t := rfl

@[simp] theorem JNum.nan_sub (x : JNum) : JNum.nan - x = JNum.nan := by
  cases x <;> rfl

@[simp] theorem JNum.sub_nan (x : JNum) : x - JNum.nan = JNum.nan := by
  cases x <;> rfl

@[simp] theorem JNum.fin_sub_fin (a b : ℚ) :
    JNum.fin a - JNum.fin b = JNum.fin (a - b) := by
  simp [JNum.sub_def, JNum.sub, JNum.add, JNum.neg, sub_eq_add_neg]

@[simp] theorem JNum.inf_sub_fin (s : Bool) (b : ℚ) :
    JNum.inf s - JNum.fin b = JNum.inf s := rfl

@[simp] theorem JNum.nan_mul (x : JNum) : JNum.nan * x = JNum.nan := by
  cases x <;> rfl

@[simp] theorem JNum.mul_nan (x : JNum) : x * JNum.nan = JNum.nan := by
  cases x <;> rfl

@[simp] theorem JNum.fin_mul_fin (a b : ℚ) :
    JNum.fin a * JNum.fin b = JNum.fin (a * b) := rfl

theorem JNum.inf_mul_fin_pos (s : Bool) {b : ℚ} (hb : 0 < b) :
    JNum.inf s * JNum.fin b = JNum.inf s := by
  simp [JNum.mul_def, JNum.mul, hb, ne_of_gt hb]

theorem JNum.inf_mul_fin_neg (s : Bool) {b : ℚ} (hb : b < 0) :
    JNum.inf s * JNum.fin b = JNum.inf (!s) := by
  simp [JNum.mul_def, JNum.mul, ne_of_lt hb, not_lt_of_lt hb]

@[simp] theorem JNum.inf_mul_fin_zero (s : Bool) :
    JNum.inf s * JNum.fin 0 = JNum.nan := by
  simp [JNum.mul_def, JNum.mul]

@[simp] theorem JNum.nan_div (x : JNum) : JNum.nan / x = JNum.nan := by
  cases x <;> rfl

theorem JNum.fin_div_fin (a : ℚ) {b : ℚ} (hb : b ≠ 0) :
    JNum.fin a / JNum.fin b = JNum.fin (a / b) := by
  simp [JNum.div_def, JNum.div, hb]

@[simp] theorem JNum.fin_zero_div_fin_zero :
    JNum.fin 0 / JNum.fin 0 = JNum.nan := by
  simp [JNum.div_def, JNum.div]

theorem JNum.fin_div_fin_zero_pos {a : ℚ} (ha : 0 < a) :
    JNum.fin a / JNum.fin 0 = JNum.inf true := by
  simp [JNum.div_def, JNum.div, ha, ne_of_gt ha]

theorem JNum.fin_div_fin_zero_neg {a : ℚ} (ha : a < 0) :
    JNum.fin a / JNum.fin 0 = JNum.inf false := by
  simp [JNum.div_def, JNum.div, ne_of_lt ha, not_lt_of_lt ha]

theorem JNum.inf_div_fin_nonneg (s : Bool) {b : ℚ} (hb : 0 ≤ b) :
    JNum.inf s / JNum.fin b = JNum.inf s := by
  simp [JNum.div_def, JNum.div, hb]

theorem JNum.inf_div_fin_neg (s : Bool) {b : ℚ} (hb : b < 0) :
    JNum.inf s / JNum.fin b = JNum.inf (!s) := by
  simp [JNum.div_def, JNum.div, not_le_of_lt hb]

example :
    (calculateMetricsJS (JNum.fin 200) (JNum.fin 80) (JNum.fin 40) (JNum.fin 40)).investorProfit =
      JNum.fin 30 := by
  norm_num [calculateMetricsJS, JNum.fin_div_fin]

/-!
## Claim theorems
-/

/-- Claim C1: for inputs with nonzero `totalBaseCost`, the engine returns
`investorProfit = ((acquisitionCost + materialCost) / totalBaseCost) * (price - totalBaseCost)`
and `contractorProfit = (laborCost / totalBaseCost) * (price - totalBaseCost)`;
the code's distribution-minus-cost formulation agrees with the spec's direct
ratio-times-margin formulation, and (when the respective cost is nonzero)
each percent field is that party's profit over its own cost times 100. -/
theorem calculateMetrics_profit_formulas (price acquisition labor material : ℚ)
    (ht : acquisition + labor + material ≠ 0) :
    (calculateMetrics price acquisition labor material).investorProfit =
        (acquisition + material) / (acquisition + labor + material) *
          (price - (acquisition + labor + material)) ∧
    (calculateMetrics price acquisition labor material).contractorProfit =
        labor / (acquisition + labor + material) *
          (price - (acquisition + labor + material)) ∧
    (calculateMetrics price acquisition labor material).investorProfit =
        specInvestorProfit price acquisition labor material ∧
    (calculateMetrics price acquisition labor material).contractorProfit =
        specContractorProfit price acquisition labor material ∧
    (acquisition + material ≠ 0 →
      (calculateMetrics price acquisition labor material).investorProfitPercent =
        (calculateMetrics price acquisition labor material).investorProfit /
          (acquisition + material) * 100) ∧
    (labor ≠ 0 →
      (calculateMetrics price acquisition labor material).contractorProfitPercent =
        (calculateMetrics price acquisition labor material).contractorProfit /
          labor * 100) := by
  refine ⟨?_, ?_, ?_, ?_, fun _ => ?_, fun _ => ?_⟩ <;>
    simp only [calculateMetrics, investorProfit, contractorProfit, investorDistribution,
      contractorDistribution, specInvestorProfit, specContractorProfit, investorRatio,
      contractorRatio, investorCosts, contractorCosts, margin, totalBaseCost] <;>
    ring

/-- Witness for C1 at `price=200, acquisition=80, labor=40, material=40`. -/
theorem calculateMetrics_profit_formulas_witness :
    (calculateMetrics 200 80 40 40).investorProfit = (80 + 40) / (80 + 40 + 40) * (200 - (80 + 40 + 40)) ∧
    (calculateMetrics 200 80 40 40).contractorProfit = 40 / (80 + 40 + 40) * (200 - (80 + 40 + 40)) ∧
    (calculateMetrics 200 80 40 40).investorProfit = specInvestorProfit 200 80 40 40 ∧
    (calculateMetrics 200 80 40 40).contractorProfit = specContractorProfit 200 80 40 40 ∧
    ((80 : ℚ) + 40 ≠ 0 →
      (calculateMetrics 200 80 40 40).investorProfitPercent =
        (calculateMetrics 200 80 40 40).investorProfit / (80 + 40) * 100) ∧
    ((40 : ℚ) ≠ 0 →
      (calculateMetrics 200 80 40 40).contractorProfitPercent =
        (calculateMetrics 200 80 40 40).contractorProfit / 40 * 100) :=
  calculateMetrics_profit_formulas 200 80 40 40 (by norm_num)

/-- Claim C2: conservation — for nonzero `totalBaseCost`, the two profits
returned by the engine sum exactly to the margin `price - totalBaseCost`
(exact arithmetic makes the spec's 1e-9 tolerance an equality). -/
theorem calculateMetrics_conservation (price acquisition labor material : ℚ)
    (ht : acquisition + labor + material ≠ 0) :
    (calculateMetrics price acquisition labor material).investorProfit +
        (calculateMetrics price acquisition labor material).contractorProfit =
      price - (acquisition + labor + material) := by
  simp only [calculateMetrics, investorProfit, contractorProfit, investorDistribution,
    contractorDistribution, investorRatio, contractorRatio, investorCosts, contractorCosts,
    margin, totalBaseCost]
  field_simp
  ring

/-- Witness for C2 at `price=200, acquisition=80, labor=40, material=40`. -/
theorem calculateMetrics_conservation_witness :
    (calculateMetrics 200 80 40 40).investorProfit +
        (calculateMetrics 200 80 40 40).contractorProfit = 200 - (80 + 40 + 40) :=
  calculateMetrics_conservation 200 80 40 40 (by norm_num)

/-- Claim C3: ratio partition — the internally computed
`investorRatio = (acquisitionCost + materialCost) / totalBaseCost` and
`contractorRatio = laborCost / totalBaseCost` sum exactly to 1 whenever
`totalBaseCost` is nonzero. -/
theorem ratio_partition (acquisition labor material : ℚ)
    (ht : acquisition + labor + material ≠ 0) :
    investorRatio acquisition labor material + contractorRatio acquisition labor material = 1 := by
  simp only [investorRatio, contractorRatio, investorCosts, contractorCosts, totalBaseCost]
  field_simp
  ring

/-- Witness for C3 at `acquisition=80, labor=40, material=40`. -/
theorem ratio_partition_witness :
    investorRatio 80 40 40 + contractorRatio 80 40 40 = 1 :=
  ratio_partition 80 40 40 (by norm_num)

/-- Claim C4: homogeneity of degree 1 — scaling all four inputs by a
positive factor `k` scales both returned profits by `k`. -/
theorem calculateMetrics_homogeneous (k price acquisition labor material : ℚ)
    (hk : 0 < k) (ht : acquisition + labor + material ≠ 0) :
    (calculateMetrics (k * price) (k * acquisition) (k * labor) (k * material)).investorProfit =
        k * (calculateMetrics price acquisition labor material).investorProfit ∧
    (calculateMetrics (k * price) (k * acquisition) (k * labor) (k * material)).contractorProfit =
        k * (calculateMetrics price acquisition labor material).contractorProfit := by
  have hkt : k * acquisition + k * labor + k * material ≠ 0 := by
    have h := mul_ne_zero (ne_of_gt hk) ht
    intro hc
    exact h (by linarith [hc])
  constructor <;>
    simp only [calculateMetrics, investorProfit, contractorProfit, investorDistribution,
      contractorDistribution, investorRatio, contractorRatio, investorCosts, contractorCosts,
      margin, totalBaseCost] <;>
    field_simp <;>
    ring

/-- Witness for C4 at `k=3, price=200, acquisition=80, labor=40, material=40`. -/
theorem calculateMetrics_homogeneous_witness :
    (calculateMetrics (3 * 200) (3 * 80) (3 * 40) (3 * 40)).investorProfit =
        3 * (calculateMetrics 200 80 40 40).investorProfit ∧
    (calculateMetrics (3 * 200) (3 * 80) (3 * 40) (3 * 40)).contractorProfit =
        3 * (calculateMetrics 200 80 40 40).contractorProfit :=
  calculateMetrics_homogeneous 3 200 80 40 40 (by norm_num) (by norm_num)

/-- Claim C5: strict monotonicity in price — with the costs fixed and
`totalBaseCost` nonzero, a strictly larger price yields a strictly larger
`investorProfit` whenever `investorRatio > 0`, and a strictly larger
`contractorProfit` whenever `contractorRatio > 0`. -/
theorem calculateMetrics_price_mono (p1 p2 acquisition labor material : ℚ)
    (ht : acquisition + labor + material ≠ 0) (hp : p1 < p2) :
    (0 < investorRatio acquisition labor material →
      (calculateMetrics p1 acquisition labor material).investorProfit <
        (calculateMetrics p2 acquisition labor material).investorProfit) ∧
    (0 < contractorRatio acquisition labor material →
      (calculateMetrics p1 acquisition labor material).contractorProfit <
        (calculateMetrics p2 acquisition labor material).contractorProfit) := by
  constructor
  · intro hr
    simp only [calculateMetrics, investorProfit, investorDistribution, investorCosts,
      margin, totalBaseCost]
    have h := mul_lt_mul_of_pos_left
      (sub_lt_sub_right hp (acquisition + labor + material)) hr
    linarith
  · intro hr
    simp only [calculateMetrics, contractorProfit, contractorDistribution, contractorCosts,
      margin, totalBaseCost]
    have h := mul_lt_mul_of_pos_left
      (sub_lt_sub_right hp (acquisition + labor + material)) hr
    linarith

/-- Witness for C5 at `p1=150, p2=200, acquisition=80, labor=40, material=40`. -/
theorem calculateMetrics_price_mono_witness :
    (0 < investorRatio 80 40 40 →
      (calculateMetrics 150 80 40 40).investorProfit <
        (calculateMetrics 200 80 40 40).investorProfit) ∧
    (0 < contractorRatio 80 40 40 →
      (calculateMetrics 150 80 40 40).contractorProfit <
        (calculateMetrics 200 80 40 40).contractorProfit) :=
  calculateMetrics_price_mono 150 200 80 40 40 (by norm_num) (by norm_num)

/-- Claim C6: zero-margin fixpoint — when the price equals the (nonzero)
total base cost, both profits are zero; instantiated by the witness at the
spec's break-even scenario `price=160, acquisition=80, labor=40, material=40`. -/
theorem zero_margin_fixpoint (price acquisition labor material : ℚ)
    (ht : acquisition + labor + material ≠ 0)
    (hp : price = acquisition + labor + material) :
    (calculateMetrics price acquisition labor material).investorProfit = 0 ∧
    (calculateMetrics price acquisition labor material).contractorProfit = 0 := by
  subst hp
  constructor <;>
    simp only [calculateMetrics, investorProfit, contractorProfit, investorDistribution,
      contractorDistribution, investorRatio, contractorRatio, investorCosts, contractorCosts,
      margin, totalBaseCost] <;>
    ring

/-- Witness for C6: the spec's break-even scenario. -/
theorem zero_margin_fixpoint_witness :
    (calculateMetrics 160 80 40 40).investorProfit = 0 ∧
    (calculateMetrics 160 80 40 40).contractorProfit = 0 :=
  zero_margin_fixpoint 160 80 40 40 (by norm_num) (by norm_num)

/-- Claim C7: concrete scenarios — `calculateMetrics(200, 80, 40, 40)` yields
`investorProfit = 30` and `contractorProfit = 10` with `totalBaseCost = 160`,
internal ratios `0.75` and `0.25`; `calculateMetrics(120, 80, 40, 40)` yields
`investorProfit = -30` and `contractorProfit = -10`. -/
theorem concrete_scenarios :
    (calculateMetrics 200 80 40 40).investorProfit = 30 ∧
    (calculateMetrics 200 80 40 40).contractorProfit = 10 ∧
    (calculateMetrics 200 80 40 40).totalBaseCost = 160 ∧
    investorRatio 80 40 40 = 0.75 ∧
    contractorRatio 80 40 40 = 0.25 ∧
    (calculateMetrics 120 80 40 40).investorProfit = -30 ∧
    (calculateMetrics 120 80 40 40).contractorProfit = -10 := by
  refine ⟨?_, ?_, ?_, ?_, ?_, ?_, ?_⟩ <;>
    norm_num [calculateMetrics, investorProfit, contractorProfit, investorDistribution,
      contractorDistribution, investorRatio, contractorRatio, investorCosts, contractorCosts,
      margin, totalBaseCost]

/-- Claim C10 (implicit): when `totalBaseCost`, the investor's cost
`acquisitionCost + materialCost` and the contractor's cost `laborCost` are
all nonzero, the two percent fields coincide, both equal to
`(price - totalBaseCost) / totalBaseCost * 100`. -/
theorem equal_profit_percent (price acquisition labor material : ℚ)
    (ht : acquisition + labor + material ≠ 0)
    (hic : acquisition + material ≠ 0) (hl : labor ≠ 0) :
    (calculateMetrics price acquisition labor material).investorProfitPercent =
        (price - (acquisition + labor + material)) / (acquisition + labor + material) * 100 ∧
    (calculateMetrics price acquisition labor material).contractorProfitPercent =
        (price - (acquisition + labor + material)) / (acquisition + labor + material) * 100 := by
  constructor <;>
    simp only [calculateMetrics, investorProfit, contractorProfit, investorDistribution,
      contractorDistribution, investorRatio, contractorRatio, investorCosts, contractorCosts,
      margin, totalBaseCost] <;>
    field_simp <;>
    ring

/-- Witness for C10 at `price=200, acquisition=80, labor=40, material=40`
(both parties see a 25 percent return there). -/
theorem equal_profit_percent_witness :
    (calculateMetrics 200 80 40 40).investorProfitPercent =
        (200 - (80 + 40 + 40)) / (80 + 40 + 40) * 100 ∧
    (calculateMetrics 200 80 40 40).contractorProfitPercent =
        (200 - (80 + 40 + 40)) / (80 + 40 + 40) * 100 :=
  equal_profit_percent 200 80 40 40 (by norm_num) (by norm_num) (by norm_num)

/-- The trend series equals, elementwise, the claim's formulation: a map over
indices 0..20 of the sample-price formula fed through `calculateMetrics`. -/
theorem trendData_eq_spec_map (acquisitionCost laborCost materialCost : ℚ) :
    trendData acquisitionCost laborCost materialCost =
      (List.range 21).map (fun (i : ℕ) =>
        { salePrice := specPointPrice (acquisitionCost + laborCost + materialCost) i
          investorProfit :=
            (calculateMetrics (specPointPrice (acquisitionCost + laborCost + materialCost) i)
              acquisitionCost laborCost materialCost).investorProfit
          contractorProfit :=
            (calculateMetrics (specPointPrice (acquisitionCost + laborCost + materialCost) i)
              acquisitionCost laborCost materialCost).contractorProfit
          investorProfitPercent :=
            (calculateMetrics (specPointPrice (acquisitionCost + laborCost + materialCost) i)
              acquisitionCost laborCost materialCost).investorProfitPercent
          contractorProfitPercent :=
            (calculateMetrics (specPointPrice (acquisitionCost + laborCost + materialCost) i)
              acquisitionCost laborCost materialCost).contractorProfitPercent
          contractorRevenue := laborCost +
            (calculateMetrics (specPointPrice (acquisitionCost + laborCost + materialCost) i)
              acquisitionCost laborCost materialCost).contractorProfit }) := by
  simp only [trendData]
  refine congrArg (List.map · (List.range 21)) ?_
  funext i
  have hp : (acquisitionCost + laborCost + materialCost) * 0.5 + (i : ℚ) *
        (((acquisitionCost + laborCost + materialCost) * 2 -
          (acquisitionCost + laborCost + materialCost) * 0.5) / ((20 : ℕ) : ℚ)) =
      specPointPrice (acquisitionCost + laborCost + materialCost) i := by
    simp only [specPointPrice]
    push_cast
    ring
  rw [← hp]

/-- Claim C8: the trend series has exactly 21 elements; element `i` records
the sample price `specPointPrice totalCost i` together with the profit and
percent fields of `calculateMetrics` at that price with the costs held fixed
(a pure per-element mapping), and the sample prices are equally spaced,
running from `0.5 * totalCost` at element 0 to `2 * totalCost` at element 20. -/
theorem trendData_spec (acquisitionCost laborCost materialCost : ℚ) :
    (trendData acquisitionCost laborCost materialCost).length = 21 ∧
    (∀ i : ℕ, ∀ h : i < (trendData acquisitionCost laborCost materialCost).length,
      (trendData acquisitionCost laborCost materialCost).get ⟨i, h⟩ =
        { salePrice := specPointPrice (acquisitionCost + laborCost + materialCost) i
          investorProfit :=
            (calculateMetrics (specPointPrice (acquisitionCost + laborCost + materialCost) i)
              acquisitionCost laborCost materialCost).investorProfit
          contractorProfit :=
            (calculateMetrics (specPointPrice (acquisitionCost + laborCost + materialCost) i)
              acquisitionCost laborCost materialCost).contractorProfit
          investorProfitPercent :=
            (calculateMetrics (specPointPrice (acquisitionCost + laborCost + materialCost) i)
              acquisitionCost laborCost materialCost).investorProfitPercent
          contractorProfitPercent :=
            (calculateMetrics (specPointPrice (acquisitionCost + laborCost + materialCost) i)
              acquisitionCost laborCost materialCost).contractorProfitPercent
          contractorRevenue := laborCost +
            (calculateMetrics (specPointPrice (acquisitionCost + laborCost + materialCost) i)
              acquisitionCost laborCost materialCost).contractorProfit }) ∧
    (∀ i : ℕ, specPointPrice (acquisitionCost + laborCost + materialCost) (i + 1) -
        specPointPrice (acquisitionCost + laborCost + materialCost) i =
      (2 * (acquisitionCost + laborCost + materialCost) -
          0.5 * (acquisitionCost + laborCost + materialCost)) / 20) ∧
    specPointPrice (acquisitionCost + laborCost + materialCost) 0 =
      0.5 * (acquisitionCost + laborCost + materialCost) ∧
    specPointPrice (acquisitionCost + laborCost + materialCost) 20 =
      2 * (acquisitionCost + laborCost + materialCost) := by
  refine ⟨?_, ?_, ?_, ?_, ?_⟩
  · rw [trendData_eq_spec_map]
    simp
  · intro i h
    rw [List.get_eq_getElem]
    simp only [trendData_eq_spec_map] at h ⊢
    rw [List.getElem_map, List.getElem_range]
  · intro i
    simp only [specPointPrice]
    push_cast
    ring
  · simp only [specPointPrice]
    norm_num
  · simp only [specPointPrice]
    push_cast
    ring

/-- Under the JavaScript model, a party whose ratio divides by a zero total
base cost ends with a non-finite profit and a non-finite profit percentage,
whatever the party's own cost `c` and the price `q`: the expressions below
are the engine's distribution-minus-cost profit and its percentage once the
total base cost is zero. -/
theorem js_party_zero_total (c q : ℚ) :
    ((JNum.fin c + JNum.fin c / JNum.fin 0 * JNum.fin q) - JNum.fin c).isFinite = false ∧
    (((JNum.fin c + JNum.fin c / JNum.fin 0 * JNum.fin q) - JNum.fin c) / JNum.fin c *
        JNum.fin 100).isFinite = false := by
  have h100 : (0 : ℚ) < 100 := by norm_num
  rcases lt_trichotomy c 0 with hc | hc | hc
  · rcases lt_trichotomy q 0 with hq | hq | hq
    · simp [JNum.fin_div_fin_zero_neg hc, JNum.inf_mul_fin_neg _ hq,
        JNum.inf_div_fin_neg _ hc, JNum.inf_mul_fin_pos _ h100]
    · subst hq
      simp [JNum.fin_div_fin_zero_neg hc]
    · simp [JNum.fin_div_fin_zero_neg hc, JNum.inf_mul_fin_pos _ hq,
        JNum.inf_div_fin_neg _ hc, JNum.inf_mul_fin_pos _ h100]
  · subst hc
    simp
  · rcases lt_trichotomy q 0 with hq | hq | hq
    · simp [JNum.fin_div_fin_zero_pos hc, JNum.inf_mul_fin_neg _ hq,
        JNum.inf_div_fin_nonneg _ (le_of_lt hc), JNum.inf_mul_fin_pos _ h100]
    · subst hq
      simp [JNum.fin_div_fin_zero_pos hc]
    · simp [JNum.fin_div_fin_zero_pos hc, JNum.inf_mul_fin_pos _ hq,
        JNum.inf_div_fin_nonneg _ (le_of_lt hc), JNum.inf_mul_fin_pos _ h100]

/-- Claim C9: under the JavaScript number model the engine is total (it is a
function returning a record for every input) and, for finite inputs, a field
is non-finite (NaN or an infinity) exactly through division by zero:
the two profits are finite iff `totalBaseCost ≠ 0`; `investorProfitPercent`
is finite iff additionally `investorCosts = acquisition + material ≠ 0`;
`contractorProfitPercent` is finite iff additionally
`contractorCosts = labor ≠ 0`; `totalBaseCost` itself is always finite.  In
particular, when all three divisors are nonzero every numeric field of the
result is a well-defined finite value. -/
theorem calculateMetricsJS_finiteness (p a l m : ℚ) :
    ((calculateMetricsJS (JNum.fin p) (JNum.fin a) (JNum.fin l)
        (JNum.fin m)).investorProfit.isFinite = true ↔ a + l + m ≠ 0) ∧
    ((calculateMetricsJS (JNum.fin p) (JNum.fin a) (JNum.fin l)
        (JNum.fin m)).contractorProfit.isFinite = true ↔ a + l + m ≠ 0) ∧
    ((calculateMetricsJS (JNum.fin p) (JNum.fin a) (JNum.fin l)
        (JNum.fin m)).investorProfitPercent.isFinite = true ↔
      (a + l + m ≠ 0 ∧ a + m ≠ 0)) ∧
    ((calculateMetricsJS (JNum.fin p) (JNum.fin a) (JNum.fin l)
        (JNum.fin m)).contractorProfitPercent.isFinite = true ↔
      (a + l + m ≠ 0 ∧ l ≠ 0)) ∧
    (calculateMetricsJS (JNum.fin p) (JNum.fin a) (JNum.fin l)
        (JNum.fin m)).totalBaseCost.isFinite = true := by
  by_cases ht : a + l + m = 0
  · refine ⟨?_, ?_, ?_, ?_, ?_⟩
    · simp only [calculateMetricsJS, JNum.fin_add_fin, JNum.fin_sub_fin]
      rw [ht, sub_zero]
      simp [(js_party_zero_total (a + m) p).1]
    · simp only [calculateMetricsJS, JNum.fin_add_fin, JNum.fin_sub_fin]
      rw [ht, sub_zero]
      simp [(js_party_zero_total l p).1]
    · simp only [calculateMetricsJS, JNum.fin_add_fin, JNum.fin_sub_fin]
      rw [ht, sub_zero]
      simp [(js_party_zero_total (a + m) p).2]
    · simp only [calculateMetricsJS, JNum.fin_add_fin, JNum.fin_sub_fin]
      rw [ht, sub_zero]
      simp [(js_party_zero_total l p).2]
    · simp [calculateMetricsJS]
  · have hdiv : ∀ x : ℚ, JNum.fin x / JNum.fin (a + l + m) = JNum.fin (x / (a + l + m)) :=
      fun x => JNum.fin_div_fin x ht
    refine ⟨?_, ?_, ?_, ?_, ?_⟩
    · simp [calculateMetricsJS, hdiv, ht]
    · simp [calculateMetricsJS, hdiv, ht]
    · by_cases hic : a + m = 0
      · simp [calculateMetricsJS, hdiv, hic, ht]
      · have hdic : ∀ x : ℚ, JNum.fin x / JNum.fin (a + m) = JNum.fin (x / (a + m)) :=
          fun x => JNum.fin_div_fin x hic
        simp [calculateMetricsJS, hdiv, hdic, hic, ht]
    · by_cases hl : l = 0
      · have him : a + m ≠ 0 := by simpa [hl] using ht
        have hdim : ∀ x : ℚ, JNum.fin x / JNum.fin (a + m) = JNum.fin (x / (a + m)) :=
          fun x => JNum.fin_div_fin x him
        simp [calculateMetricsJS, hdiv, hdim, hl, ht]
      · have hdl : ∀ x : ℚ, JNum.fin x / JNum.fin l = JNum.fin (x / l) :=
          fun x => JNum.fin_div_fin x hl
        simp [calculateMetricsJS, hdiv, hdl, hl, ht]
    · simp [calculateMetricsJS]
